import Mathlib

/-!
# Verification of the `hnpull` polling / resume engine

Shallow embedding of `src/hn-pull.ts` (wiremoons/hnpull): a Deno program that
polls the Hacker News API for new items, classifies stories, and persists a
cursor (the last processed item ID) in `localStorage` so later runs resume
where they left off.

Modelling conventions:
* JS numbers that the program uses as item IDs and counters are modelled as
  `Int` (they are integers throughout the program; `parseInt` NaN is handled
  where it can arise, see `getLastId`).
* `undefined`-able record fields are `Option` fields.
* `localStorage` is an association list `List (String × String)` with
  `setItem` / `getItem` mirroring the `Storage` API.
* Network calls are inputs: each loop iteration is a function of what the
  remote source returned (the fetched item, the re-queried max ID).
-/

namespace HnPull

/-- The HN `Item` interface, `src/hn-pull.ts` lines 87-103.  All fields except
`id` are optional in the TypeScript interface.  `by` is a Lean keyword so the
field is called `by_`. -/
structure Item where
  id : Int
  type : Option String := none
  by_ : Option String := none
  title : Option String := none
  url : Option String := none
  text : Option String := none
  time : Option Int := none
  score : Option Int := none
  descendants : Option Int := none
  deleted : Option Bool := none
  dead : Option Bool := none
  parent : Option Int := none
  kids : Option (List Int) := none
  poll : Option Int := none
  parts : Option (List Int) := none
  deriving Repr, DecidableEq

/-! ## JS `parseInt` model -/

/-- Decimal values of the longest digit prefix of a character list. -/
def digitsPrefix : List Char → List Nat
  | [] => []
  | c :: cs => if c.isDigit then (c.toNat - 48) :: digitsPrefix cs else []

/-- Fold a digit list into the natural number it denotes. -/
def natFromDigits (ds : List Nat) : Nat := ds.foldl (fun a d => 10 * a + d) 0

/-- Model of JavaScript `parseInt` (default radix 10): skip leading spaces,
allow one sign, parse the longest digit prefix; `none` models the NaN result
when no digit follows. -/
def parseIntJS (s : String) : Option Int :=
  let cs := (s.toList).dropWhile (fun c => c = ' ')
  match cs with
  | '-' :: rest =>
    match digitsPrefix rest with
    | [] => none
    | ds => some (-(natFromDigits ds : Int))
  | '+' :: rest =>
    match digitsPrefix rest with
    | [] => none
    | ds => some ((natFromDigits ds : Int))
  | rest =>
    match digitsPrefix rest with
    | [] => none
    | ds => some ((natFromDigits ds : Int))

/-! ## Remote source: `getMaxID`, lines 110-115 -/

/-- Function `getMaxID`, lines 110-115: `return (parseInt(item)) || -1;` applied to the
raw response body.  JavaScript `||` takes the right operand whenever the left
is falsy, which happens both when `parseInt` returned NaN *and* when it
returned `0` (zero is falsy), so the sentinel `-1` is produced in both cases. -/
def getMaxID (response : String) : Int :=
  match parseIntJS response with
  | none => -1
  | some n => if n = 0 then -1 else n

/-! ## Cursor store: `localStorage`, `setLastId` (154-160), `getLastId` (168-183) -/

/-- Model of `Storage.setItem`: replace the value of the key, or append the pair. -/
def setItem : List (String × String) → String → String → List (String × String)
  | [], k, v => [(k, v)]
  | (k', v') :: rest, k, v =>
    if k' = k then (k, v) :: rest else (k', v') :: setItem rest k v

/-- Model of `Storage.getItem`: the value stored for the key, if any. -/
def getItem (st : List (String × String)) (k : String) : Option String :=
  (st.find? (fun p => p.1 == k)).map (fun p => p.2)

/-- Function `setLastId`, lines 154-160.  The guard is
`isNumber(hnID) && hnID >= 0`; `isNumber` is the type guard
`arg !== undefined`, which always holds for a number argument, so only
`hnID >= 0` remains.  On success the decimal string `` `${hnID}` `` is stored
under the fixed key `"hnIdKey"` and `true` is returned; otherwise storage is
untouched and `false` is returned. -/
def setLastId (st : List (String × String)) (hnID : Int) :
    List (String × String) × Bool :=
  if hnID ≥ 0 then (setItem st "hnIdKey" (toString hnID), true)
  else (st, false)

/-- Function `getLastId`, lines 168-183:
`if (localStorage.length > 0) return parseInt(localStorage.getItem("hnIdKey") ?? "-1")`,
with `-1` returned when storage is empty.  The `try/catch` for inaccessible
storage terminates the process (fatal) and is outside this model.  A NaN from
`parseInt` (possible only for a non-numeric stored string, which `setLastId`
never writes) behaves like a non-positive value at the single use site
(`id > 0` test, line 196) and is modelled as `-1`. -/
def getLastId (st : List (String × String)) : Int :=
  if st.length > 0 then (parseIntJS ((getItem st "hnIdKey").getD "-1")).getD (-1)
  else -1

/-! ## Item classifier, lines 259-266 -/

/-- Lines 261-263: `const removed = deleted || dead || false;` — absent
(`undefined`) flags are falsy, so `removed` is true exactly when `deleted` or
`dead` is present and `true`. -/
def removedOf (item : Item) : Bool :=
  item.deleted.getD false || item.dead.getD false

/-- Line 266: the display filter `type === "story" && !removed`.  The spec
names this predicate `isDisplayable`. -/
def isDisplayable (item : Item) : Bool :=
  (item.type == some "story") && !(removedOf item)

/-! ## User enrichment: `getUserData`, lines 134-145 -/

/-- The two fields of the HN user record that `getUserData` reads. -/
structure HNUser where
  created : Option Int := none
  karma : Option Int := none
  deriving Repr, DecidableEq

/-- How a JS template literal prints a possibly-`undefined` number
(`` `${item.karma}` ``). -/
def jsShowOptInt : Option Int → String
  | some n => toString n
  | none => "undefined"

/-- Civil calendar date (year, month, day) of a day count since 1970-01-01
(Gregorian, standard days-to-civil conversion); used only to render the
`dd-MM-yyyy` display string. -/
def civilFromDays (z : Int) : Int × Int × Int :=
  let z2 := z + 719468
  let era := (if z2 ≥ 0 then z2 else z2 - 146096) / 146097
  let doe := (z2 - era * 146097).toNat
  let yoe := (doe - doe / 1460 + doe / 36524 - doe / 146096) / 365
  let y := (yoe : Int) + era * 400
  let doy := doe - (365 * yoe + yoe / 4 - yoe / 100)
  let mp := (5 * doy + 2) / 153
  let d := doy - (153 * mp + 2) / 5 + 1
  let m := if mp < 10 then mp + 3 else mp - 9
  (if m ≤ 2 then y + 1 else y, (m : Int), (d : Int))

/-- Zero-padded two-digit rendering for day and month numbers. -/
def pad2 (n : Int) : String :=
  if 0 ≤ n ∧ n < 10 then "0" ++ toString n else toString n

/-- Function `getDisplayDate`, lines 68-79: `format(new Date(epochTime * 1000), "dd-MM-yyyy")`
guarded by `isNumber(epochTime)`, which is `epochTime !== undefined`; an absent
epoch yields `"UNKNOWN"`.  The Deno std `format` call is modelled as the UTC
civil date of the epoch second count. -/
def getDisplayDate (epochTime : Option Int) : String :=
  match epochTime with
  | none => "UNKNOWN"
  | some t =>
    let (y, m, d) := civilFromDays (Int.fdiv t 86400)
    pad2 d ++ "-" ++ pad2 m ++ "-" ++ toString y

/-- Function `getUserData`, lines 134-145, as a function of the handle and the fetched
user record.  The guard `userID && userID !== "unknown author"` treats the
empty string as falsy.  In the success branch the source returns
``​`account since ${getDisplayDate(item.created)}. ` + `[karma: ${item.karma}]`​``;
the trailing `?? "[karma: undefined]"` of the source can never apply because
its left operand is a non-null string. -/
def getUserData (userID : String) (user : HNUser) : String :=
  if userID ≠ "" ∧ userID ≠ "unknown author" then
    ("account since " ++ getDisplayDate user.created ++ ". ") ++
      ("[karma: " ++ jsShowOptInt user.karma ++ "]")
  else "UNKNOWN"

/-! ## Resume phase of `streamStory`, lines 186-231 -/

/-- Line 196: `id = (id > 0) ? id : nowId;` — resume from the stored cursor
only when it is strictly positive, otherwise start at the current max ID. -/
def resumeId (cursor nowId : Int) : Int :=
  if cursor > 0 then cursor else nowId

/-- Observable outcome of the pre-loop phase: the working `id` it hands to the
walk, whether the `confirm` prompt was shown, and the grace delay taken. -/
structure ResumeOut where
  id : Int
  promptShown : Bool
  graceMs : Nat
  deriving Repr, DecidableEq

/-- Lines 196-221 of `streamStory`: resolve the starting position, compute
`diffId = nowId - id`, and when `diffId > 100` ask the operator; `replay`
models the `confirm` answer (`true`: retrieve the whole backlog from `id`;
`false`: reset `id := nowId`).  Either prompt branch delays 3 seconds
(`delay(3 * 1000)`). -/
def resumePhase (cursor nowId : Int) (replay : Bool) : ResumeOut :=
  let id := resumeId cursor nowId
  let diffId := nowId - id
  if diffId > 100 then
    if replay then { id := id, promptShown := true, graceMs := 3 * 1000 }
    else { id := nowId, promptShown := true, graceMs := 3 * 1000 }
  else { id := id, promptShown := false, graceMs := 0 }

/-! ## The WALK / IDLE-WAIT loop, lines 236-288 -/

/-- Mutable state of the `while (true)` loop: the working `id`, the fixed
`startId` (line 224), the two counters (lines 225-226), and the persistent
store. -/
structure LoopState where
  id : Int
  startId : Int
  skippedId : Int
  storyId : Int
  store : List (String × String)
  deriving Repr, DecidableEq

/-- Loop state right after the resume phase: counters zero, `startId = id`
(line 224), storage as inherited. -/
def initState (cursor nowId : Int) (replay : Bool)
    (st : List (String × String)) : LoopState :=
  { id := (resumePhase cursor nowId replay).id
    startId := (resumePhase cursor nowId replay).id
    skippedId := 0
    storyId := 0
    store := st }

/-- Fixed idle sleep of the loop, line 253: `delay(120 * 1000)`. -/
def idleDelayMs : Nat := 120 * 1000

/-- Observable outcome of one loop iteration: the successor state, the ID
rendered to the screen (if the story block ran), the cursor value persisted
(if `setLastId` reported success), whether the idle branch ran, and how long
it slept. -/
structure StepOut where
  state : LoopState
  rendered : Option Int
  wrote : Option Int
  idled : Bool
  sleptMs : Nat
  deriving Repr, DecidableEq

/-- One iteration of the `while (true)` loop, lines 236-288, as a function of
what the network returned: `fetched` is `getItemByID(id)` (`none` models the
JSON `null` / `undefined` result) and `maxIdNow` is the value `getMaxID()`
would return if the absent branch re-queries it (line 242).
* absent, `id < maxIdNow`: `id += 1; skippedId += 1; continue` (243-246);
* absent otherwise: print the time, `delay(120 * 1000)`, `continue` with the
  state untouched (248-256);
* present: classify (259-266); on a displayable story `storyId += 1` and the
  summary is printed (270-281); in both cases `setLastId(id)` then `id += 1`
  (284-287). -/
def walkStep (s : LoopState) (fetched : Option Item) (maxIdNow : Int) : StepOut :=
  match fetched with
  | none =>
    if s.id < maxIdNow then
      { state := { s with id := s.id + 1, skippedId := s.skippedId + 1 }
        rendered := none, wrote := none, idled := false, sleptMs := 0 }
    else
      { state := s, rendered := none, wrote := none, idled := true
        sleptMs := idleDelayMs }
  | some item =>
    let displayed := isDisplayable item
    let storyId' := if displayed then s.storyId + 1 else s.storyId
    let saveOut := setLastId s.store s.id
    { state := { s with storyId := storyId', store := saveOut.1, id := s.id + 1 }
      rendered := if displayed then some s.id else none
      wrote := if saveOut.2 then some s.id else none
      idled := false
      sleptMs := 0 }

/-- Run the loop over a finite prefix of the (infinite) execution: one
environment entry `(fetched, maxIdNow)` per iteration. -/
def walkRun (s : LoopState) : List (Option Item × Int) → LoopState
  | [] => s
  | (f, m) :: rest => walkRun (walkStep s f m).state rest

/-- The sequence of cursor values the run persists, in order (zero or one
write per iteration, `Option.toList` flattens). -/
def walkWrites (s : LoopState) : List (Option Item × Int) → List Int
  | [] => []
  | (f, m) :: rest =>
    (walkStep s f m).wrote.toList ++ walkWrites (walkStep s f m).state rest

/-- Counter invariant of the walk (claim C10): every ID passed since the start
was counted at most once, as a displayed story or as a skipped hole. -/
def countersInv (s : LoopState) : Prop :=
  s.storyId + s.skippedId ≤ s.id - s.startId

/-! ## Helper lemmas -/

/-- Reading back the key just written by `setItem`. -/
theorem getItem_setItem_self (st : List (String × String)) (k v : String) :
    getItem (setItem st k v) k = some v := by
  induction st with
  | nil => simp [setItem, getItem, List.find?]
  | cons p rest ih =>
    obtain ⟨k', v'⟩ := p
    by_cases h : k' = k
    · simp [setItem, h, getItem, List.find?]
    · simp only [setItem, if_neg h, getItem, List.find?] at ih ⊢
      rw [show ((k', v').1 == k) = false by simpa using h]
      exact ih

/-- A `Bool`-valued optional flag defaulted to `false` is `false` exactly when
the flag is not present-and-`true`. -/
theorem getD_false_eq_false_iff (o : Option Bool) :
    (o.getD false = false) ↔ o ≠ some true := by
  cases o with
  | none => simp
  | some b => cases b <;> simp

/-- The working `id` never moves backwards in one iteration. -/
theorem walkStep_id_le (s : LoopState) (f : Option Item) (m : Int) :
    s.id ≤ (walkStep s f m).state.id := by
  cases f with
  | none =>
    simp only [walkStep]
    split
    · simp only; omega
    · simp
  | some item => simp only [walkStep]; omega

/-- The iteration fixes `startId`. -/
theorem walkStep_startId (s : LoopState) (f : Option Item) (m : Int) :
    (walkStep s f m).state.startId = s.startId := by
  cases f with
  | none => simp only [walkStep]; split <;> rfl
  | some item => rfl

/-- Any cursor value persisted by an iteration is the iteration's working
`id`. -/
theorem walkStep_wrote_val (s : LoopState) (f : Option Item) (m : Int) (w : Int)
    (h : (walkStep s f m).wrote = some w) : w = s.id := by
  cases f with
  | none =>
    simp only [walkStep] at h
    split at h <;> simp at h
  | some item =>
    simp only [walkStep] at h
    split at h
    · exact (Option.some.inj h).symm
    · simp at h

/-- Every cursor value a run persists is at least the starting working `id`. -/
theorem walkWrites_ge (env : List (Option Item × Int)) (s : LoopState) :
    ∀ w ∈ walkWrites s env, s.id ≤ w := by
  induction env generalizing s with
  | nil => intro w hw; simp [walkWrites] at hw
  | cons e rest ih =>
    obtain ⟨f, m⟩ := e
    intro w hw
    rw [walkWrites, List.mem_append] at hw
    rcases hw with hw | hw
    · rw [Option.mem_toList, Option.mem_def] at hw
      exact le_of_eq (walkStep_wrote_val s f m w hw).symm
    · exact le_trans (walkStep_id_le s f m) (ih _ w hw)

/-- The working `id` never moves backwards over a whole run. -/
theorem walkRun_id_le (env : List (Option Item × Int)) (s : LoopState) :
    s.id ≤ (walkRun s env).id := by
  induction env generalizing s with
  | nil => simp [walkRun]
  | cons e rest ih =>
    obtain ⟨f, m⟩ := e
    rw [walkRun]
    exact le_trans (walkStep_id_le s f m) (ih _)

/-- One iteration preserves the counter invariant. -/
theorem countersInv_step (s : LoopState) (f : Option Item) (m : Int)
    (h : countersInv s) : countersInv (walkStep s f m).state := by
  cases f with
  | none =>
    simp only [walkStep]
    split
    · simp only [countersInv] at h ⊢; omega
    · exact h
  | some item =>
    simp only [walkStep, countersInv] at h ⊢
    split <;> omega

/-- A whole run preserves the counter invariant. -/
theorem countersInv_run (env : List (Option Item × Int)) (s : LoopState)
    (h : countersInv s) : countersInv (walkRun s env) := by
  induction env generalizing s with
  | nil => exact h
  | cons e rest ih =>
    obtain ⟨f, m⟩ := e
    rw [walkRun]
    exact ih _ (countersInv_step s f m h)

/-! ## Claim theorems -/

/-- C1, counterexample: a persisted cursor of `0` is NOT resumed.  With
`"0"` stored under `"hnIdKey"` the loaded cursor is `0`, yet the walk starts
at the current max ID (`5000` here), not at `0`, because line 196 tests
`id > 0`, not `id >= 0`. -/
theorem c1_resume_counterexample :
    getLastId [("hnIdKey", "0")] = 0 ∧
    (initState (getLastId [("hnIdKey", "0")]) 5000 true [("hnIdKey", "0")]).id = 5000 ∧
    (5000 : Int) ≠ 0 := by
  refine ⟨by decide, by decide, by decide⟩

/-- C1, amended: for every persisted cursor `c > 0` (rather than `c ≥ 0`),
provided the gap confirmation either does not trigger (`nowId - c ≤ 100`) or
the operator chooses to replay the backlog, the walk begins at exactly `c`:
the working `id` of the initial loop state is `c` itself. -/
theorem c1_resume_starts_at_cursor (st : List (String × String))
    (c nowId : Int) (replay : Bool) (hld : getLastId st = c) (hc : 0 < c)
    (hgap : nowId - c ≤ 100 ∨ replay = true) :
    (initState (getLastId st) nowId replay st).id = c := by
  subst hld
  simp only [initState, resumePhase, resumeId, if_pos hc]
  by_cases hbig : nowId - getLastId st > 100
  · rcases hgap with h | h
    · omega
    · simp [hbig, h]
  · simp [hbig]

/-- C1, witness: cursor `1000` with max ID `1050` (gap `50 ≤ 100`) resumes at
exactly `1000`. -/
theorem c1_resume_starts_at_cursor_witness :
    getLastId [("hnIdKey", "1000")] = 1000 ∧ (0 : Int) < 1000 ∧
    ((1050 : Int) - 1000 ≤ 100 ∨ false = true) ∧
    (initState (getLastId [("hnIdKey", "1000")]) 1050 false
      [("hnIdKey", "1000")]).id = 1000 :=
  ⟨by decide, by decide, Or.inl (by decide),
    c1_resume_starts_at_cursor [("hnIdKey", "1000")] 1000 1050 false
      (by decide) (by decide) (Or.inl (by decide))⟩

/-- C2: when the fetch returns absent, then if `id` is below the re-queried
max ID the step advances `id` by exactly 1, increments the skip counter by
exactly 1, renders nothing, does not idle and does not sleep; otherwise the
step idles, sleeps the fixed 120-second interval, renders nothing and leaves
the whole state (including `id`) unchanged. -/
theorem c2_absent_item_step (s : LoopState) (m : Int) :
    (s.id < m →
      (walkStep s none m).state =
          { s with id := s.id + 1, skippedId := s.skippedId + 1 } ∧
        (walkStep s none m).rendered = none ∧
        (walkStep s none m).idled = false ∧
        (walkStep s none m).sleptMs = 0) ∧
    (¬ s.id < m →
      (walkStep s none m).idled = true ∧
        (walkStep s none m).sleptMs = idleDelayMs ∧
        idleDelayMs = 120 * 1000 ∧
        (walkStep s none m).state = s ∧
        (walkStep s none m).rendered = none) := by
  constructor
  · intro h
    simp [walkStep, h]
  · intro h
    simp [walkStep, h, idleDelayMs]

/-- C2, witness: at `id = 5` with re-queried max `10`, an absent item is
skipped — state advances to `id = 6`, `skippedId = 1`. -/
theorem c2_absent_item_step_witness :
    ({ id := 5, startId := 5, skippedId := 0, storyId := 0, store := [] } :
        LoopState).id < 10 ∧
    (walkStep { id := 5, startId := 5, skippedId := 0, storyId := 0, store := [] }
        none 10).state =
      { id := 6, startId := 5, skippedId := 1, storyId := 0, store := [] } := by
  constructor
  · decide
  · have h := (c2_absent_item_step
      { id := 5, startId := 5, skippedId := 0, storyId := 0, store := [] } 10).1
      (by decide)
    exact h.1.trans (by decide)

/-- C3: the classifier accepts an item exactly when its type is `"story"` and
neither `deleted` nor `dead` is present-and-`true`; absent flags count as
`false`, so a story with neither flag is displayable, while a comment never
is and a deleted story never is. -/
theorem c3_classifier_iff (item : Item) :
    isDisplayable item = true ↔
      (item.type = some "story" ∧ item.deleted ≠ some true ∧
        item.dead ≠ some true) := by
  simp only [isDisplayable, removedOf, Bool.and_eq_true, beq_iff_eq,
    Bool.not_eq_true', Bool.or_eq_false_iff, and_assoc]
  rw [getD_false_eq_false_iff, getD_false_eq_false_iff]

/-- C4: the operator gap-confirmation prompt is shown precisely when the
difference between the max ID and the resolved starting position exceeds 100
(so a difference of 100 does not trigger it and 101 does). -/
theorem c4_gap_confirm_iff (cursor nowId : Int) (replay : Bool) :
    (resumePhase cursor nowId replay).promptShown = true ↔
      100 < nowId - resumeId cursor nowId := by
  simp only [resumePhase]
  split
  · cases replay <;> simp_all [gt_iff_lt]
  · simp_all [gt_iff_lt]

/-- C5: an iteration whose fetch is present persists the cursor as the
current `id` (whatever the classifier decided) and only then advances `id`
by 1, provided `id` is non-negative (`setLastId`'s guard); an iteration whose
fetch is absent leaves the persistent store untouched. -/
theorem c5_cursor_write_frame (s : LoopState) (item : Item) (m mAbsent : Int) :
    (0 ≤ s.id →
      (walkStep s (some item) m).wrote = some s.id ∧
        getItem (walkStep s (some item) m).state.store "hnIdKey" =
          some (toString s.id) ∧
        (walkStep s (some item) m).state.id = s.id + 1) ∧
    (walkStep s none mAbsent).state.store = s.store := by
  constructor
  · intro h
    have hset : setLastId s.store s.id =
        (setItem s.store "hnIdKey" (toString s.id), true) := if_pos h
    refine ⟨?_, ?_, ?_⟩
    · simp [walkStep, hset]
    · simp only [walkStep, hset]
      exact getItem_setItem_self _ _ _
    · simp only [walkStep]
  · simp only [walkStep]
    split <;> rfl

/-- C5, witness: at `id = 5` a present story item is persisted as cursor `5`
(stored string `"5"`) and the walk moves to `id = 6`. -/
theorem c5_cursor_write_frame_witness :
    (0 : Int) ≤ (5 : Int) ∧
    (walkStep { id := 5, startId := 5, skippedId := 0, storyId := 0, store := [] }
        (some { id := 5, type := some "story" }) 0).wrote = some 5 := by
  refine ⟨by decide, ?_⟩
  exact ((c5_cursor_write_frame
    { id := 5, startId := 5, skippedId := 0, storyId := 0, store := [] }
    { id := 5, type := some "story" } 0 0).1 (by decide)).1

/-- C6: within one run, the sequence of persisted cursor values is
monotonically non-decreasing (`Pairwise (≤)`, so in particular each successive
write is at least the previous one), and no step of the loop moves the working
`id` backwards. -/
theorem c6_cursor_monotone (s : LoopState) (env : List (Option Item × Int)) :
    List.Pairwise (fun a b => a ≤ b) (walkWrites s env) ∧
      s.id ≤ (walkRun s env).id := by
  constructor
  · induction env generalizing s with
    | nil => simp [walkWrites]
    | cons e rest ih =>
      obtain ⟨f, m⟩ := e
      rw [walkWrites]
      cases hwr : (walkStep s f m).wrote with
      | none => simpa using ih _
      | some w =>
        simp only [Option.toList_some, List.singleton_append, List.pairwise_cons]
        refine ⟨fun b hb => ?_, ih _⟩
        have h1 : (walkStep s f m).state.id ≤ b := walkWrites_ge rest _ b hb
        have h2 : w = s.id := walkStep_wrote_val s f m w hwr
        have h3 := walkStep_id_le s f m
        omega
  · exact walkRun_id_le env s

/-- C7: evidence of the code bug in `getMaxID`.  A response of `"0"` parses
as the integer `0`, but `parseInt(item) || -1` treats `0` as falsy and the
function returns the sentinel `-1` instead of the parsed value, contradicting
its own documentation (`-1` only when unable to parse, i.e. NaN). -/
theorem c7_maxid_zero_response :
    parseIntJS "0" = some 0 ∧ getMaxID "0" = -1 ∧ ((-1 : Int) ≠ 0) := by
  refine ⟨by decide, by decide, by decide⟩

/-- C8: `setLastId` returns `false` and leaves storage untouched exactly when
the given ID is negative; for every non-negative ID (including `0`) it stores
the decimal string form under the fixed key `"hnIdKey"` and returns `true`. -/
theorem c8_setLastId_guard (st : List (String × String)) (hnID : Int) :
    (hnID < 0 → setLastId st hnID = (st, false)) ∧
    (0 ≤ hnID →
      (setLastId st hnID).2 = true ∧
        getItem (setLastId st hnID).1 "hnIdKey" = some (toString hnID)) := by
  constructor
  · intro h
    simp only [setLastId]
    rw [if_neg (by omega)]
  · intro h
    simp only [setLastId]
    rw [if_pos (by omega)]
    exact ⟨rfl, getItem_setItem_self _ _ _⟩

/-- C8, witness: `setLastId` rejects `-3` unchanged and accepts `0`, storing
the string `"0"`. -/
theorem c8_setLastId_guard_witness :
    ((-3 : Int) < 0 ∧ setLastId [] (-3) = ([], false)) ∧
    ((0 : Int) ≤ 0 ∧ getItem (setLastId [] 0).1 "hnIdKey" = some "0") := by
  constructor
  · exact ⟨by decide, (c8_setLastId_guard [] (-3)).1 (by decide)⟩
  · refine ⟨by decide, ?_⟩
    have h := ((c8_setLastId_guard [] 0).2 (by decide)).2
    exact h.trans (by decide)

/-- C9, counterexample: for the valid handle `"alice"` with a user record
missing both `created` and `karma`, `getUserData` does not degrade to the
string `"UNKNOWN"`; it returns the composite enrichment string with embedded
`UNKNOWN` / `undefined` fragments. -/
theorem c9_enrichment_counterexample :
    getUserData "alice" { created := none, karma := none } =
        "account since UNKNOWN. [karma: undefined]" ∧
      getUserData "alice" { created := none, karma := none } ≠ "UNKNOWN" := by
  refine ⟨by decide, by decide⟩

/-- C9, amended: `getUserData` returns the bare string `"UNKNOWN"` exactly
when the handle is falsy (empty) or the placeholder `"unknown author"`; for
every valid handle it returns the composite enrichment string, in which a
missing creation date appears as the fragment `UNKNOWN` and missing karma as
`undefined` — the lookup never aborts, but incomplete data does not degrade
to the bare `"UNKNOWN"`. -/
theorem c9_enrichment_amended (userID : String) (user : HNUser) :
    (userID = "" ∨ userID = "unknown author" →
      getUserData userID user = "UNKNOWN") ∧
    (userID ≠ "" → userID ≠ "unknown author" →
      getUserData userID user =
        ("account since " ++ getDisplayDate user.created ++ ". ") ++
          ("[karma: " ++ jsShowOptInt user.karma ++ "]")) := by
  constructor
  · intro h
    rcases h with h | h <;> simp [getUserData, h]
  · intro h1 h2
    simp [getUserData, h1, h2]

/-- C9, witness: the empty handle yields `"UNKNOWN"`; the valid handle
`"moons"` with karma `77` but no creation date yields the composite string. -/
theorem c9_enrichment_amended_witness :
    getUserData "" { created := none, karma := none } = "UNKNOWN" ∧
    getUserData "moons" { created := none, karma := some 77 } =
      "account since UNKNOWN. [karma: 77]" := by
  constructor
  · exact (c9_enrichment_amended "" { created := none, karma := none }).1
      (Or.inl rfl)
  · have h := (c9_enrichment_amended "moons"
      { created := none, karma := some 77 }).2 (by decide) (by decide)
    exact h.trans (by decide)

/-- C10: from the initial loop state, after any number of iterations the
displayed-story counter plus the skipped-hole counter never exceeds the
number of IDs advanced past since the start (`id - startId`): each advance
of `id` accounts for at most one of the two counters. -/
theorem c10_counters_bounded (cursor nowId : Int) (replay : Bool)
    (st : List (String × String)) (env : List (Option Item × Int)) :
    countersInv (walkRun (initState cursor nowId replay st) env) := by
  apply countersInv_run
  simp [countersInv, initState]

end HnPull
